import Mathlib

/-!
Verification of the `Searcher` orchestration layer of xtr-warp
(`src/warp/searcher.py`), as a shallow embedding in Lean 4.

The embedding covers:
* the mutable `ColBERTConfig` view that `dense_search` inspects and fills
  (the three retrieval-breadth options plus an opaque remainder);
* the adaptive "set-once" defaulting policy in `Searcher.dense_search`
  (lines 168-188 of the source);
* result trimming in `dense_search` (line 199);
* constructor-time validation and backend selection in `Searcher.__init__`
  (lines 40-85);
* the two-stage configuration merge (lines 45-56), with the merge
  combinator modelled from the spec because `ColBERTConfig.from_existing`
  lives outside the given sources;
* the batch pipeline `_search_all_Q` (lines 135-163).

External collaborators (the encoder, the ranking backends, tqdm) are
treated as oracles passed in as function arguments, following the spec's
scoping of the core.
-/

namespace XTRWarp

/-- The part of `ColBERTConfig` that `Searcher.dense_search` reads and
writes: the three retrieval-breadth options, each either unset (`none`,
Python `None`) or holding a value, plus an opaque association list for
every other option (which the adaptive policy never touches). Scores and
thresholds are modelled as exact rationals. -/
structure ColBERTSettings where
  ncells : Option Nat
  centroid_score_threshold : Option ℚ
  ndocs : Option Nat
  other : List (String × String)
deriving Repr, DecidableEq

/-- `searcher.configure(ncells=v)` — sets exactly the `ncells` option. -/
def configureNcells (c : ColBERTSettings) (v : Nat) : ColBERTSettings :=
  { c with ncells := some v }

/-- `searcher.configure(centroid_score_threshold=v)`. -/
def configureCst (c : ColBERTSettings) (v : ℚ) : ColBERTSettings :=
  { c with centroid_score_threshold := some v }

/-- `searcher.configure(ndocs=v)`. -/
def configureNdocs (c : ColBERTSettings) (v : Nat) : ColBERTSettings :=
  { c with ndocs := some v }

/-- The adaptive parameter fill at the head of `Searcher.dense_search`
(searcher.py lines 168-188): three `k` buckets; within the selected
bucket each of the three options is set only if it is currently `None`. -/
def denseSearchFill (k : Nat) (c : ColBERTSettings) : ColBERTSettings :=
  if k ≤ 10 then
    let c := if c.ncells = none then configureNcells c 1 else c
    let c := if c.centroid_score_threshold = none then configureCst c 0.5 else c
    let c := if c.ndocs = none then configureNdocs c 256 else c
    c
  else if k ≤ 100 then
    let c := if c.ncells = none then configureNcells c 2 else c
    let c := if c.centroid_score_threshold = none then configureCst c 0.45 else c
    let c := if c.ndocs = none then configureNdocs c 1024 else c
    c
  else
    let c := if c.ncells = none then configureNcells c 4 else c
    let c := if c.centroid_score_threshold = none then configureCst c 0.4 else c
    let c := if c.ndocs = none then configureNdocs c (max (k * 4) 4096) else c
    c

/-- The configuration state after a sequence of `dense_search` calls with
the given `k` values (only the adaptive fill affects the configuration). -/
def denseSearchFillSeq (c : ColBERTSettings) (ks : List Nat) : ColBERTSettings :=
  ks.foldl (fun c k => denseSearchFill k c) c

/-- The advanced-engine run configuration (`WARPRunConfig`): the three
advanced-only tuning knobs the constructor reads from it. -/
structure WARPRunConfig where
  t_prime : Option Nat
  bound : Nat
  fused_ext : Bool
deriving Repr, DecidableEq

/-- The three interchangeable `RankingBackend` variants, each carrying
exactly the constructor arguments the source passes it
(searcher.py lines 74-85). The baseline `IndexScorer` receives none of
the advanced-only parameters. -/
inductive Ranker where
  | indexScorerWARP (index : String) (useGpu : Bool) (mmap : Bool)
      (tPrime : Option Nat) (bound : Nat)
  | parallelIndexScorerWARP (index : String) (useGpu : Bool) (mmap : Bool)
      (tPrime : Option Nat) (bound : Nat) (fusedDecompressionMerge : Bool)
  | indexScorer (index : String) (useGpu : Bool) (mmap : Bool)
deriving Repr, DecidableEq

/-- How `Searcher.__init__` can fail: the explicit `ValueError` raised at
line 72 (the spec's `InvalidConfigurationError`), or a Python
`AttributeError` from reading an attribute of `None`
(e.g. `warp_config.t_prime` at lines 78/82 when `warp_config is None`). -/
inductive ConstructError where
  | valueError (msg : String)
  | attributeError (attr : String)
deriving Repr, DecidableEq

/-- The engine-selection block of `Searcher.__init__` (lines 74-85):
if `warp_engine`, read `t_prime`/`bound` (and `fused_ext` in the parallel
branch) off `warp_config` — an `AttributeError` when `warp_config` is
`None` — and pick the single-worker variant when exactly one torch thread
is available, the multi-worker variant otherwise; if not `warp_engine`,
build the baseline `IndexScorer`. -/
def selectRanker (warpEngine : Bool) (numThreads : Nat)
    (warpConfig : Option WARPRunConfig) (index : String)
    (useGpu : Bool) (mmap : Bool) : Except ConstructError Ranker :=
  if warpEngine then
    match warpConfig with
    | none => .error (.attributeError "t_prime")
    | some wc =>
      if numThreads = 1 then
        .ok (.indexScorerWARP index useGpu mmap wc.t_prime wc.bound)
      else
        .ok (.parallelIndexScorerWARP index useGpu mmap wc.t_prime wc.bound wc.fused_ext)
  else
    .ok (.indexScorer index useGpu mmap)

/-- The validation-and-selection tail of `Searcher.__init__`
(lines 67-85): `use_gpu = total_visible_gpus > 0`; raise
`ValueError("Memory-mapped index can only be used with CPU!")` when the
memory-map flag and GPU compute are both requested; otherwise run engine
selection. `totalVisibleGpus` and `loadIndexWithMmap` are the resolved
configuration's values; `numThreads` is `torch.get_num_threads()`. -/
def searcherInit (totalVisibleGpus : Nat) (loadIndexWithMmap : Bool)
    (warpEngine : Bool) (numThreads : Nat)
    (warpConfig : Option WARPRunConfig) (index : String) :
    Except ConstructError Ranker :=
  let useGpu := decide (totalVisibleGpus > 0)
  if loadIndexWithMmap && useGpu then
    .error (.valueError "Memory-mapped index can only be used with CPU!")
  else
    selectRanker warpEngine numThreads warpConfig index useGpu loadIndexWithMmap

/-- A partial configuration source: a mapping from option name to a value,
with each option either set or unset. -/
def PartialConfig (V : Type) : Type := String → Option V

/-- Modelled from the spec: `ColBERTConfig.from_existing` (used at
searcher.py lines 45 and 54 but defined in `warp/infra/config`, which is
not among the given sources). Per the spec's ConfigResolver contract,
it takes configuration sources ordered highest precedence first and, for
each option, the first source in that order that has the option set wins;
if no source sets it, the option remains unset. -/
def fromExisting {V : Type} (sources : List (PartialConfig V)) : PartialConfig V :=
  fun o => (sources.map (fun s => s o)).foldr (fun v acc => v.orElse (fun _ => acc)) none

/-- The two-stage configuration merge of `Searcher.__init__`
(lines 45-56): first merge the explicit caller config over the process
defaults (`Run().config`), then merge the checkpoint config, the index
config and that caller-merged config. -/
def effectiveConfig {V : Type} (callerConfig processDefaults checkpointConfig
    indexConfig : PartialConfig V) : PartialConfig V :=
  let initial := fromExisting [callerConfig, processDefaults]
  fromExisting [checkpointConfig, indexConfig, initial]

/-- The state a constructed `Searcher` carries into its search methods:
the engine flag, the backend chosen at construction, and the mutable
configuration. -/
structure SearcherState where
  warpEngine : Bool
  ranker : Ranker
  config : ColBERTSettings
deriving Repr, DecidableEq

/-- `Searcher.dense_search` (lines 165-199), with the backend `rank`
calls supplied as oracles over abstract query-vector (`V`) and filter
(`Filt`) types: apply the adaptive fill to the configuration, invoke the
warp backend (which receives `k`) or the baseline backend (which does
not), and return the updated state together with
`(pids[:k], list(range(1, k + 1)), scores[:k])`. -/
def denseSearch {V Filt : Type}
    (rankWarp : ColBERTSettings → List V → Nat → Option Filt → Option (List Nat) → List Nat × List ℚ)
    (rankBase : ColBERTSettings → List V → Option Filt → Option (List Nat) → List Nat × List ℚ)
    (s : SearcherState) (Q : List V) (k : Nat)
    (filterFn : Option Filt) (pids : Option (List Nat)) :
    SearcherState × (List Nat × List Nat × List ℚ) :=
  let c := denseSearchFill k s.config
  let pr := if s.warpEngine then rankWarp c Q k filterFn pids
            else rankBase c Q filterFn pids
  ({ s with config := c }, (pr.1.take k, List.range' 1 k, pr.2.take k))

/-- `list(zip(*dense_search(...)))`: transpose the three parallel
sequences into one sequence of (pid, rank, score) triples, truncating to
the shortest, as Python's `zip` does. -/
def zipTranspose (pids ranks : List Nat) (scores : List ℚ) : List (Nat × Nat × ℚ) :=
  pids.zip (ranks.zip scores)

/-- A query batch (`Queries`): an ordered mapping from query identifier
to query text, plus an opaque provenance token for the batch. -/
structure QueryBatch where
  entries : List (String × String)
  provenanceTag : String
deriving Repr, DecidableEq

/-- The `Provenance` record assembled by `_search_all_Q`
(lines 157-161). -/
structure Provenance where
  source : String
  queries : String
  config : ColBERTSettings
  k : Nat
deriving Repr, DecidableEq

/-- A `Ranking`: the per-query results keyed by query identifier, in
insertion order, plus one `Provenance` record. -/
structure Ranking where
  data : List (String × List (Nat × Nat × ℚ))
  provenance : Provenance
deriving Repr, DecidableEq

/-- The list comprehension of `_search_all_Q` (lines 141-153): iterate
over `enumerate(qids)`, calling `dense_search` on the one-row slice
`Q[query_idx : query_idx + 1]` with that query's candidate pool, and
transpose each result. The configuration mutations of `dense_search`
thread through the iterations. -/
def searchAllLoop {V Filt : Type}
    (rankWarp : ColBERTSettings → List V → Nat → Option Filt → Option (List Nat) → List Nat × List ℚ)
    (rankBase : ColBERTSettings → List V → Option Filt → Option (List Nat) → List Nat × List ℚ)
    (s : SearcherState) (Q : List V) (k : Nat) (filterFn : Option Filt)
    (qidToPids : String → Option (List Nat)) (queryIdx : Nat) :
    List String → SearcherState × List (List (Nat × Nat × ℚ))
  | [] => (s, [])
  | qid :: rest =>
    let step := denseSearch rankWarp rankBase s ((Q.drop queryIdx).take 1) k
      filterFn (qidToPids qid)
    let tail := searchAllLoop rankWarp rankBase step.1 Q k filterFn qidToPids
      (queryIdx + 1) rest
    (tail.1, zipTranspose step.2.1 step.2.2.1 step.2.2.2 :: tail.2)

/-- `Searcher._search_all_Q` (lines 135-163): default the per-query
candidate pools to unrestricted, run the per-query loop, key the results
by the batch's query identifiers in batch order, and attach one
`Provenance` record for the whole batch. `showProgress` only toggles the
`tqdm` progress display (`disable=not show_progress`) and never enters
the computation. -/
def searchAllQ {V Filt : Type}
    (rankWarp : ColBERTSettings → List V → Nat → Option Filt → Option (List Nat) → List Nat × List ℚ)
    (rankBase : ColBERTSettings → List V → Option Filt → Option (List Nat) → List Nat × List ℚ)
    (s : SearcherState) (queries : QueryBatch) (Q : List V) (k : Nat)
    (filterFn : Option Filt)
    (qidToPids : Option (String → Option (List Nat)))
    (showProgress : Bool) : SearcherState × Ranking :=
  let qids := queries.entries.map Prod.fst
  let qtp : String → Option (List Nat) :=
    match qidToPids with
    | none => fun _ => none
    | some f => f
  let loop := searchAllLoop rankWarp rankBase s Q k filterFn qtp 0 qids
  let data := qids.zip loop.2
  let provenance : Provenance :=
    { source := "Searcher::search_all"
      queries := queries.provenanceTag
      config := loop.1.config
      k := k }
  (loop.1, { data := data, provenance := provenance })

/-! ## Helper lemmas about the adaptive fill -/

theorem denseSearchFill_other (k : Nat) (c : ColBERTSettings) :
    (denseSearchFill k c).other = c.other := by
  simp only [denseSearchFill, configureNcells, configureCst, configureNdocs]
  split <;> (repeat' split) <;> rfl

theorem denseSearchFill_ncells_set (k : Nat) (c : ColBERTSettings) (v : Nat)
    (h : c.ncells = some v) : (denseSearchFill k c).ncells = some v := by
  simp only [denseSearchFill, configureNcells, configureCst, configureNdocs]
  split <;> (repeat' split) <;> simp_all

theorem denseSearchFill_cst_set (k : Nat) (c : ColBERTSettings) (v : ℚ)
    (h : c.centroid_score_threshold = some v) :
    (denseSearchFill k c).centroid_score_threshold = some v := by
  simp only [denseSearchFill, configureNcells, configureCst, configureNdocs]
  split <;> (repeat' split) <;> simp_all

theorem denseSearchFill_ndocs_set (k : Nat) (c : ColBERTSettings) (v : Nat)
    (h : c.ndocs = some v) : (denseSearchFill k c).ndocs = some v := by
  simp only [denseSearchFill, configureNcells, configureCst, configureNdocs]
  split <;> (repeat' split) <;> simp_all

theorem denseSearchFill_of_all_set (k : Nat) (c : ColBERTSettings)
    (h1 : c.ncells ≠ none) (h2 : c.centroid_score_threshold ≠ none)
    (h3 : c.ndocs ≠ none) : denseSearchFill k c = c := by
  simp only [denseSearchFill, configureNcells, configureCst, configureNdocs]
  split <;> simp [h1, h2, h3]

theorem denseSearchFillSeq_ndocs_set (c : ColBERTSettings) (ks : List Nat)
    (v : Nat) (h : c.ndocs = some v) :
    (denseSearchFillSeq c ks).ndocs = some v := by
  induction ks generalizing c with
  | nil => exact h
  | cons k ks ih => exact ih (denseSearchFill k c) (denseSearchFill_ndocs_set k c v h)

theorem denseSearchFill_unset_bucket1 (k : Nat) (c : ColBERTSettings)
    (h1 : c.ncells = none) (h2 : c.centroid_score_threshold = none)
    (h3 : c.ndocs = none) (hk : k ≤ 10) :
    denseSearchFill k c =
      { c with ncells := some 1, centroid_score_threshold := some 0.5,
               ndocs := some 256 } := by
  simp [denseSearchFill, hk, h1, h2, h3, configureNcells, configureCst,
    configureNdocs]

theorem denseSearchFill_unset_bucket2 (k : Nat) (c : ColBERTSettings)
    (h1 : c.ncells = none) (h2 : c.centroid_score_threshold = none)
    (h3 : c.ndocs = none) (hk : 10 < k) (hk' : k ≤ 100) :
    denseSearchFill k c =
      { c with ncells := some 2, centroid_score_threshold := some 0.45,
               ndocs := some 1024 } := by
  have hnk : ¬ k ≤ 10 := by omega
  simp [denseSearchFill, hnk, hk', h1, h2, h3, configureNcells,
    configureCst, configureNdocs]

theorem denseSearchFill_unset_bucket3 (k : Nat) (c : ColBERTSettings)
    (h1 : c.ncells = none) (h2 : c.centroid_score_threshold = none)
    (h3 : c.ndocs = none) (hk : 100 < k) :
    denseSearchFill k c =
      { c with ncells := some 4, centroid_score_threshold := some 0.4,
               ndocs := some (max (k * 4) 4096) } := by
  have hnk : ¬ k ≤ 10 := by omega
  have hnk' : ¬ k ≤ 100 := by omega
  simp [denseSearchFill, hnk, hnk', h1, h2, h3, configureNcells,
    configureCst, configureNdocs]

/-! ## Claim theorems -/

/-- C4: when all three retrieval-breadth parameters are unset, a
`dense_search` call with requested count `k` fills them with the bucket
values: `(1, 0.5, 256)` for `k ≤ 10`, `(2, 0.45, 1024)` for
`10 < k ≤ 100`, and `(4, 0.4, max(4k, 4096))` for `k > 100`. -/
theorem C4_adaptive_bucket_values (k : Nat) (c : ColBERTSettings)
    (h1 : c.ncells = none) (h2 : c.centroid_score_threshold = none)
    (h3 : c.ndocs = none) :
    (k ≤ 10 → denseSearchFill k c =
      { c with ncells := some 1, centroid_score_threshold := some 0.5,
               ndocs := some 256 }) ∧
    (10 < k → k ≤ 100 → denseSearchFill k c =
      { c with ncells := some 2, centroid_score_threshold := some 0.45,
               ndocs := some 1024 }) ∧
    (100 < k → denseSearchFill k c =
      { c with ncells := some 4, centroid_score_threshold := some 0.4,
               ndocs := some (max (k * 4) 4096) }) :=
  ⟨denseSearchFill_unset_bucket1 k c h1 h2 h3,
   denseSearchFill_unset_bucket2 k c h1 h2 h3,
   denseSearchFill_unset_bucket3 k c h1 h2 h3⟩

/-- Witness for C4 at `k = 5` on a fully-unset configuration. -/
theorem C4_adaptive_bucket_values_witness :
    denseSearchFill 5 ⟨none, none, none, []⟩ =
      ⟨some 1, some 0.5, some 256, []⟩ :=
  (C4_adaptive_bucket_values 5 ⟨none, none, none, []⟩ rfl rfl rfl).1
    (by decide)

/-- C1: on a Searcher whose `ncells`, `centroid_score_threshold` and
`ndocs` are all unset, a `dense_search` call with `k = 5` fixes them at
`1`, `0.5`, `256`; a later call with `k = 500` (and indeed with any `k`)
leaves the configuration unchanged, so the `k = 500` bucket values never
appear. -/
theorem C1_sticky_adaptive_defaults (c : ColBERTSettings)
    (h1 : c.ncells = none) (h2 : c.centroid_score_threshold = none)
    (h3 : c.ndocs = none) :
    (denseSearchFill 5 c).ncells = some 1 ∧
    (denseSearchFill 5 c).centroid_score_threshold = some 0.5 ∧
    (denseSearchFill 5 c).ndocs = some 256 ∧
    denseSearchFill 500 (denseSearchFill 5 c) = denseSearchFill 5 c ∧
    (∀ k', denseSearchFill k' (denseSearchFill 5 c) = denseSearchFill 5 c) := by
  have h5 : denseSearchFill 5 c =
      { c with ncells := some 1, centroid_score_threshold := some 0.5,
               ndocs := some 256 } :=
    denseSearchFill_unset_bucket1 5 c h1 h2 h3 (by decide)
  have hid : ∀ k', denseSearchFill k' (denseSearchFill 5 c) = denseSearchFill 5 c := by
    intro k'
    apply denseSearchFill_of_all_set <;> rw [h5] <;> simp
  exact ⟨by rw [h5], by rw [h5], by rw [h5], hid 500, hid⟩

/-- Witness for C1 on the fully-unset configuration. -/
theorem C1_sticky_adaptive_defaults_witness :
    (denseSearchFill 5 ⟨none, none, none, []⟩).ncells = some 1 ∧
    denseSearchFill 500 (denseSearchFill 5 ⟨none, none, none, []⟩) =
      denseSearchFill 5 ⟨none, none, none, []⟩ :=
  ⟨(C1_sticky_adaptive_defaults ⟨none, none, none, []⟩ rfl rfl rfl).1,
   (C1_sticky_adaptive_defaults ⟨none, none, none, []⟩ rfl rfl rfl).2.2.2.1⟩

/-- C5: an explicitly configured value is never overwritten by the
adaptive policy — `configure(ndocs=2000)` before any search keeps
`ndocs = 2000` through every subsequent sequence of `dense_search`
calls with arbitrary `k` values; in general the adaptive fill changes
only unset breadth parameters and leaves every already-set option (and
every option outside the three) unchanged. -/
theorem C5_configure_is_sticky (c : ColBERTSettings) (ks : List Nat) :
    (denseSearchFillSeq (configureNdocs c 2000) ks).ndocs = some 2000 ∧
    (∀ k c', (denseSearchFill k c').other = c'.other ∧
      (∀ v, c'.ncells = some v → (denseSearchFill k c').ncells = some v) ∧
      (∀ v, c'.centroid_score_threshold = some v →
        (denseSearchFill k c').centroid_score_threshold = some v) ∧
      (∀ v, c'.ndocs = some v → (denseSearchFill k c').ndocs = some v)) :=
  ⟨denseSearchFillSeq_ndocs_set (configureNdocs c 2000) ks 2000 rfl,
   fun k c' => ⟨denseSearchFill_other k c',
     fun v => denseSearchFill_ncells_set k c' v,
     fun v => denseSearchFill_cst_set k c' v,
     fun v => denseSearchFill_ndocs_set k c' v⟩⟩

/-- Witness for C5: `configure(ndocs=2000)` then searches with
`k = 5` and `k = 500` leaves `ndocs = 2000`. -/
theorem C5_configure_is_sticky_witness :
    (denseSearchFillSeq (configureNdocs ⟨none, none, none, []⟩ 2000)
      [5, 500]).ndocs = some 2000 ∧
    (denseSearchFill 7 (configureNcells ⟨none, none, none, []⟩ 9)).ncells =
      some 9 :=
  ⟨(C5_configure_is_sticky ⟨none, none, none, []⟩ [5, 500]).1,
   ((C5_configure_is_sticky ⟨none, none, none, []⟩ []).2 7
     (configureNcells ⟨none, none, none, []⟩ 9)).2.1 9 rfl⟩

/-- C2: construction fails with the invalid-configuration error
(`ValueError("Memory-mapped index can only be used with CPU!")`) exactly
when GPU compute (`total_visible_gpus > 0`) and memory-mapped index
loading are both requested; for every other combination of GPU count,
memory-map flag, engine choice and worker count, construction succeeds —
given well-formed config sources, i.e. a `WARPRunConfig` is present
whenever the warp engine is requested. -/
theorem C2_mmap_gpu_invalid_configuration (gpus : Nat) (mmap warpEngine : Bool)
    (numThreads : Nat) (wc : Option WARPRunConfig) (index : String)
    (hwf : warpEngine = true → wc ≠ none) :
    (searcherInit gpus mmap warpEngine numThreads wc index =
        .error (.valueError "Memory-mapped index can only be used with CPU!") ↔
      0 < gpus ∧ mmap = true) ∧
    ((searcherInit gpus mmap warpEngine numThreads wc index).isOk ↔
      ¬(0 < gpus ∧ mmap = true)) := by
  unfold searcherInit selectRanker
  by_cases hg : 0 < gpus <;> by_cases hm : mmap = true <;>
    cases warpEngine <;>
    cases wc with
    | none => simp_all [Except.isOk, Except.toBool]
    | some w => by_cases ht : numThreads = 1 <;> simp_all [Except.isOk, Except.toBool]

/-- Witness for C2: with one GPU and memory-mapping requested,
construction fails with the invalid-configuration error; with zero GPUs
it succeeds. -/
theorem C2_mmap_gpu_invalid_configuration_witness :
    searcherInit 1 true false 1 none "idx" =
      .error (.valueError "Memory-mapped index can only be used with CPU!") ∧
    (searcherInit 0 true false 1 none "idx").isOk :=
  ⟨(C2_mmap_gpu_invalid_configuration 1 true false 1 none "idx"
      (by simp)).1.mpr (by simp),
   (C2_mmap_gpu_invalid_configuration 0 true false 1 none "idx"
      (by simp)).2.mpr (by simp)⟩

/-- C7: engine selection at construction — warp engine with more than one
worker thread yields the multi-worker variant (carrying the fused
decompression-merge flag), warp engine with exactly one worker thread
yields the single-worker variant, and without the warp engine the
baseline `IndexScorer` is built (for any `warp_config`, receiving none of
the advanced-only parameters); a `dense_search` call never changes the
chosen backend. -/
theorem C7_engine_selection (gpus : Nat) (mmap : Bool) (numThreads : Nat)
    (wc : WARPRunConfig) (index : String)
    (hok : ¬(mmap = true ∧ 0 < gpus)) :
    (1 < numThreads →
      searcherInit gpus mmap true numThreads (some wc) index =
        .ok (.parallelIndexScorerWARP index (decide (0 < gpus)) mmap
          wc.t_prime wc.bound wc.fused_ext)) ∧
    (numThreads = 1 →
      searcherInit gpus mmap true numThreads (some wc) index =
        .ok (.indexScorerWARP index (decide (0 < gpus)) mmap
          wc.t_prime wc.bound)) ∧
    (∀ wc' : Option WARPRunConfig,
      searcherInit gpus mmap false numThreads wc' index =
        .ok (.indexScorer index (decide (0 < gpus)) mmap)) ∧
    (∀ (V Filt : Type) (rankWarp : ColBERTSettings → List V → Nat →
        Option Filt → Option (List Nat) → List Nat × List ℚ)
      (rankBase : ColBERTSettings → List V → Option Filt →
        Option (List Nat) → List Nat × List ℚ)
      (s : SearcherState) (Q : List V) (k : Nat) (filterFn : Option Filt)
      (pids : Option (List Nat)),
      (denseSearch rankWarp rankBase s Q k filterFn pids).1.ranker = s.ranker) := by
  refine ⟨fun ht => ?_, fun ht => ?_, fun wc' => ?_, fun V Filt rw rb s Q k f p => rfl⟩ <;>
    unfold searcherInit selectRanker <;>
    by_cases hg : 0 < gpus <;> by_cases hm : mmap = true <;> simp_all <;> omega

/-- Witness for C7 with two worker threads, no GPU, no memory-mapping. -/
theorem C7_engine_selection_witness :
    searcherInit 0 false true 2 (some ⟨some 3, 4, true⟩) "idx" =
      .ok (.parallelIndexScorerWARP "idx" false false (some 3) 4 true) :=
  (C7_engine_selection 0 false 2 ⟨some 3, 4, true⟩ "idx"
    (by simp)).1 (by decide)

/-- C10: constructing with `warp_engine=True` but a config that is not a
`WARPRunConfig` leaves `warp_config` as `None`, and (whenever the
GPU/memory-map check passes) construction fails with an
`AttributeError` reading `t_prime` off `None` — never with the
invalid-configuration `ValueError`. -/
theorem C10_warp_engine_requires_warp_config (gpus : Nat) (mmap : Bool)
    (numThreads : Nat) (index : String)
    (hok : ¬(mmap = true ∧ 0 < gpus)) :
    searcherInit gpus mmap true numThreads none index =
      .error (.attributeError "t_prime") ∧
    ∀ msg, searcherInit gpus mmap true numThreads none index ≠
      .error (.valueError msg) := by
  unfold searcherInit selectRanker
  by_cases hg : 0 < gpus <;> by_cases hm : mmap = true <;> simp_all

/-- Witness for C10: CPU-only, no memory-mapping, warp engine requested
with no `WARPRunConfig`. -/
theorem C10_warp_engine_requires_warp_config_witness :
    searcherInit 0 false true 1 none "idx" =
      .error (.attributeError "t_prime") :=
  (C10_warp_engine_requires_warp_config 0 false 1 "idx" (by simp)).1

theorem searchAllLoop_length {V Filt : Type}
    (rankWarp : ColBERTSettings → List V → Nat → Option Filt → Option (List Nat) → List Nat × List ℚ)
    (rankBase : ColBERTSettings → List V → Option Filt → Option (List Nat) → List Nat × List ℚ)
    (s : SearcherState) (Q : List V) (k : Nat) (filterFn : Option Filt)
    (qidToPids : String → Option (List Nat)) (queryIdx : Nat)
    (qids : List String) :
    (searchAllLoop rankWarp rankBase s Q k filterFn qidToPids queryIdx qids).2.length =
      qids.length := by
  induction qids generalizing s queryIdx with
  | nil => rfl
  | cons qid rest ih => simp [searchAllLoop, ih]

/-- C3 counterexample: with `k = 5` and a backend that returns only two
entries, the document-id sequence has length 2 while the rank sequence
`list(range(1, k + 1))` has length 5 — the three returned sequences do
not have equal length. -/
theorem C3_trim_counterexample :
    (denseSearch (fun _ _ _ _ _ => ([], []))
        (fun _ _ _ _ => ([7, 8], [(1 : ℚ), 2]))
        ⟨false, .indexScorer "idx" false false, ⟨none, none, none, []⟩⟩
        ([] : List Unit) 5 (none : Option Unit) none).2.1.length ≠
      (denseSearch (fun _ _ _ _ _ => ([], []))
        (fun _ _ _ _ => ([7, 8], [(1 : ℚ), 2]))
        ⟨false, .indexScorer "idx" false false, ⟨none, none, none, []⟩⟩
        ([] : List Unit) 5 (none : Option Unit) none).2.2.1.length := by
  decide

/-- C3 amended: `dense_search` returns the first `k` entries of the
backend's id and score sequences (truncated, never padded, so their
lengths are `min (backend length) k`), while the rank sequence is always
exactly `[1, ..., k]` of length `k`; hence all three sequences have
equal length `k` whenever the backend returns at least `k` ids and
scores. -/
theorem C3_trim_to_k {V Filt : Type}
    (rankWarp : ColBERTSettings → List V → Nat → Option Filt → Option (List Nat) → List Nat × List ℚ)
    (rankBase : ColBERTSettings → List V → Option Filt → Option (List Nat) → List Nat × List ℚ)
    (s : SearcherState) (Q : List V) (k : Nat) (filterFn : Option Filt)
    (pids : Option (List Nat)) :
    (denseSearch rankWarp rankBase s Q k filterFn pids).2.1 =
      (if s.warpEngine then rankWarp (denseSearchFill k s.config) Q k filterFn pids
       else rankBase (denseSearchFill k s.config) Q filterFn pids).1.take k ∧
    (denseSearch rankWarp rankBase s Q k filterFn pids).2.2.1 = List.range' 1 k ∧
    (denseSearch rankWarp rankBase s Q k filterFn pids).2.2.2 =
      (if s.warpEngine then rankWarp (denseSearchFill k s.config) Q k filterFn pids
       else rankBase (denseSearchFill k s.config) Q filterFn pids).2.take k ∧
    (denseSearch rankWarp rankBase s Q k filterFn pids).2.1.length ≤ k ∧
    (denseSearch rankWarp rankBase s Q k filterFn pids).2.2.1.length = k ∧
    (denseSearch rankWarp rankBase s Q k filterFn pids).2.2.2.length ≤ k ∧
    ((k ≤ (if s.warpEngine then rankWarp (denseSearchFill k s.config) Q k filterFn pids
           else rankBase (denseSearchFill k s.config) Q filterFn pids).1.length ∧
      k ≤ (if s.warpEngine then rankWarp (denseSearchFill k s.config) Q k filterFn pids
           else rankBase (denseSearchFill k s.config) Q filterFn pids).2.length) →
      (denseSearch rankWarp rankBase s Q k filterFn pids).2.1.length = k ∧
      (denseSearch rankWarp rankBase s Q k filterFn pids).2.2.1.length = k ∧
      (denseSearch rankWarp rankBase s Q k filterFn pids).2.2.2.length = k) := by
  refine ⟨?_, rfl, ?_, ?_, ?_, ?_, fun h => ⟨?_, ?_, ?_⟩⟩ <;>
    simp [denseSearch, List.length_take, List.length_range'] <;> omega

/-- Witness for C3's amended theorem: `k = 2` on a backend returning
three entries gives all three sequences length 2. -/
theorem C3_trim_to_k_witness :
    (denseSearch (fun _ _ _ _ _ => ([], []))
        (fun _ _ _ _ => ([7, 8, 9], [(3 : ℚ), 2, 1]))
        ⟨false, .indexScorer "idx" false false, ⟨none, none, none, []⟩⟩
        ([] : List Unit) 2 (none : Option Unit) none).2.1.length = 2 ∧
    (denseSearch (fun _ _ _ _ _ => ([], []))
        (fun _ _ _ _ => ([7, 8, 9], [(3 : ℚ), 2, 1]))
        ⟨false, .indexScorer "idx" false false, ⟨none, none, none, []⟩⟩
        ([] : List Unit) 2 (none : Option Unit) none).2.2.1.length = 2 :=
  ⟨((C3_trim_to_k (fun _ _ _ _ _ => ([], []))
      (fun _ _ _ _ => ([7, 8, 9], [(3 : ℚ), 2, 1]))
      ⟨false, .indexScorer "idx" false false, ⟨none, none, none, []⟩⟩
      ([] : List Unit) 2 (none : Option Unit) none).2.2.2.2.2.2
      (by decide)).1,
   ((C3_trim_to_k (fun _ _ _ _ _ => ([], []))
      (fun _ _ _ _ => ([7, 8, 9], [(3 : ℚ), 2, 1]))
      ⟨false, .indexScorer "idx" false false, ⟨none, none, none, []⟩⟩
      ([] : List Unit) 2 (none : Option Unit) none).2.2.2.2.2.2
      (by decide)).2.1⟩

/-- C6: configuration precedence through the two-stage merge — an option
set in the explicit caller config and unset in checkpoint and index
configs appears unchanged in the effective configuration, regardless of
the process defaults. -/
theorem C6_config_precedence {V : Type}
    (callerConfig processDefaults checkpointConfig indexConfig : PartialConfig V)
    (o : String) (v : V)
    (hchk : checkpointConfig o = none) (hidx : indexConfig o = none)
    (hc : callerConfig o = some v) :
    effectiveConfig callerConfig processDefaults checkpointConfig indexConfig o =
      some v := by
  simp [effectiveConfig, fromExisting, hchk, hidx, hc, Option.orElse]

/-- Witness for C6: `nbits` set to 4 only by the caller survives a
conflicting process default of 2. -/
theorem C6_config_precedence_witness :
    effectiveConfig (V := Nat) (fun o => if o = "nbits" then some 4 else none)
      (fun _ => some 2) (fun _ => none) (fun _ => none) "nbits" = some 4 :=
  C6_config_precedence (fun o => if o = "nbits" then some 4 else none)
    (fun _ => some 2) (fun _ => none) (fun _ => none) "nbits" 4
    rfl rfl (by simp)

/-- C8: `search_all` returns a Ranking whose keys are exactly the
batch's query identifiers, in batch order, carrying one Provenance
record for the whole batch whose `k` field is the requested `k` and
whose `queries` field is the batch's own provenance. -/
theorem C8_search_all_keys_and_provenance {V Filt : Type}
    (rankWarp : ColBERTSettings → List V → Nat → Option Filt → Option (List Nat) → List Nat × List ℚ)
    (rankBase : ColBERTSettings → List V → Option Filt → Option (List Nat) → List Nat × List ℚ)
    (s : SearcherState) (queries : QueryBatch) (Q : List V) (k : Nat)
    (filterFn : Option Filt)
    (qidToPids : Option (String → Option (List Nat))) (showProgress : Bool) :
    (searchAllQ rankWarp rankBase s queries Q k filterFn qidToPids
        showProgress).2.data.map Prod.fst = queries.entries.map Prod.fst ∧
    (searchAllQ rankWarp rankBase s queries Q k filterFn qidToPids
        showProgress).2.provenance.k = k ∧
    (searchAllQ rankWarp rankBase s queries Q k filterFn qidToPids
        showProgress).2.provenance.queries = queries.provenanceTag ∧
    (searchAllQ rankWarp rankBase s queries Q k filterFn qidToPids
        showProgress).2.provenance.source = "Searcher::search_all" := by
  refine ⟨?_, rfl, rfl, rfl⟩
  apply List.map_fst_zip
  rw [searchAllLoop_length]

/-- C9: progress-signal noninterference — two `search_all` runs that
differ only in the `show_progress` argument produce identical final
states and identical Rankings. -/
theorem C9_progress_noninterference {V Filt : Type}
    (rankWarp : ColBERTSettings → List V → Nat → Option Filt → Option (List Nat) → List Nat × List ℚ)
    (rankBase : ColBERTSettings → List V → Option Filt → Option (List Nat) → List Nat × List ℚ)
    (s : SearcherState) (queries : QueryBatch) (Q : List V) (k : Nat)
    (filterFn : Option Filt)
    (qidToPids : Option (String → Option (List Nat))) (sp sp' : Bool) :
    searchAllQ rankWarp rankBase s queries Q k filterFn qidToPids sp =
      searchAllQ rankWarp rankBase s queries Q k filterFn qidToPids sp' := rfl

end XTRWarp
